import Mathlib

/-!
Verification development for a two-file Python repository:
* `mscore_adapter.py` — a dataset adapter (`MSCoReAdapter`) that loads JSON
  records, converts them to a target format, and tags question text with
  keyword-based boolean flags;
* `new_agents/temporal_reasoning_agent.py` — a `TemporalReasoningAgent` whose
  `process` method classifies a free-text query into one of six temporal
  operations, extracts dates with regular expressions, and computes a result
  string together with a heuristic confidence score.

The Python code is shallowly embedded below.  Conventions of the embedding:
* Python `datetime` dates are triples of naturals validated exactly as
  CPython does (year 1..9999, month 1..12, day 1..days-in-month); the
  constructor is modelled as `Except`-valued, a raised `ValueError` being the
  `.error` case.  Day arithmetic uses the proleptic-Gregorian ordinal, the
  same quantity as the CPython `date.toordinal` method.
* The three regular expressions of the source — the date pattern
  `\b(\d{1,2}) SEP (\d{1,2}) SEP (\d{4})\b` where SEP is the character class
  of slash and hyphen, the duration pattern `(\d+)\s+(day|month|year)s?`,
  and the year pattern `\b(\d{4})\b` — are implemented as executable scanners with Python `re`
  semantics (leftmost match, greedy quantifiers, non-overlapping `findall`,
  ASCII word characters for `\b`).  For these patterns greedy matching with
  the mandatory separator/space that follows each quantified group is
  equivalent to full backtracking, so the scanners are deterministic.
* Python floats only ever carry the values 0.0, 0.7, 0.9, 1.0 (up to float
  rounding) in this code and are only compared for being zero / nonzero by
  the claims, so confidence is modelled in `ℚ` with the literal arithmetic
  of the source.
* Strings are ASCII in all inputs of interest; `str.lower` is modelled by
  ASCII `Char.toLower`.
-/

set_option maxRecDepth 4000

namespace MaaS

/-! ## String utilities (Python `in`, `str.lower`, character classes) -/

/-- Python `\w` (ASCII range): letters, digits, underscore. -/
def isWordChar (c : Char) : Bool := c.isAlphanum || c == '_'

/-- Python `\s` character class: the six ASCII whitespace characters. -/
def pyIsSpace (c : Char) : Bool :=
  c == ' ' || c == '\t' || c == '\n' || c == '\r' || c == '\x0b' || c == '\x0c'

/-- Numeric value of a decimal digit character. -/
def digVal (c : Char) : Nat := c.toNat - 48

/-- `isPrefixOfL needle l`: `needle` is a prefix of `l`. -/
def isPrefixOfL : List Char → List Char → Bool
  | [], _ => true
  | _ :: _, [] => false
  | a :: as, b :: bs => a == b && isPrefixOfL as bs

/-- `infixOfL needle hay`: `needle` occurs contiguously in `hay`
(Python `needle in hay` on strings). -/
def infixOfL (needle : List Char) : List Char → Bool
  | [] => isPrefixOfL needle []
  | c :: cs => isPrefixOfL needle (c :: cs) || infixOfL needle cs

/-- Python `pat in hay` for strings. -/
def strContains (hay pat : String) : Bool := infixOfL pat.data hay.data

/-- Python `str.lower` (ASCII). -/
def pyLower (s : String) : String := String.mk (s.data.map Char.toLower)

/-- `any(word in text for word in words)`. -/
def hasAny (text : String) (words : List String) : Bool :=
  words.any (fun w => strContains text w)

/-! ## CPython `datetime` model -/

/-- Gregorian leap-year test, as used by `datetime`. -/
def isLeapYear (y : Nat) : Bool := (y % 4 == 0 && y % 100 != 0) || y % 400 == 0

/-- Number of days in month `m` of year `y`. -/
def daysInMonth (y m : Nat) : Nat :=
  if m = 2 then (if isLeapYear y then 29 else 28)
  else if m = 4 ∨ m = 6 ∨ m = 9 ∨ m = 11 then 30
  else 31

/-- A constructed `datetime.datetime` value (midnight; this code never uses
the time-of-day fields). -/
structure PyDate where
  year : Nat
  month : Nat
  day : Nat
deriving Repr, DecidableEq

/-- The range checks of the CPython `datetime` constructor. -/
def isValidDate (y m d : Nat) : Prop :=
  1 ≤ y ∧ y ≤ 9999 ∧ 1 ≤ m ∧ m ≤ 12 ∧ 1 ≤ d ∧ d ≤ daysInMonth y m

instance (y m d : Nat) : Decidable (isValidDate y m d) := by
  unfold isValidDate; infer_instance

/-- `datetime(year, month, day)`: returns the date or raises `ValueError`
(modelled as `.error` carrying the CPython message). -/
def datetime_mk (y m d : Nat) : Except String PyDate :=
  if y < 1 ∨ 9999 < y then .error "year is out of range"
  else if m < 1 ∨ 12 < m then .error "month must be in 1..12"
  else if d < 1 ∨ daysInMonth y m < d then .error "day is out of range for month"
  else .ok ⟨y, m, d⟩

/-- Days in all years strictly before year `y` (proleptic Gregorian). -/
def daysBeforeYear (y : Nat) : Nat :=
  365 * (y - 1) + (y - 1) / 4 - (y - 1) / 100 + (y - 1) / 400

/-- Days in the months of year `y` strictly before month `m`. -/
def daysBeforeMonth (y m : Nat) : Nat :=
  (List.range (m - 1)).foldl (fun acc i => acc + daysInMonth y (i + 1)) 0

/-- CPython `date.toordinal`: day 1 is January 1 of year 1. -/
def toOrdinal (dt : PyDate) : Nat :=
  daysBeforeYear dt.year + daysBeforeMonth dt.year dt.month + dt.day

/-- Locate the month of a 0-based day-of-year offset (at most 12 steps). -/
def monthLoop : Nat → Nat → Nat → Nat → Nat × Nat
  | 0, _, m, n => (m, n + 1)
  | fuel + 1, y, m, n =>
    if n < daysInMonth y m then (m, n + 1)
    else monthLoop fuel y (m + 1) (n - daysInMonth y m)

/-- CPython `date.fromordinal` (the `_ord2ymd` algorithm). -/
def fromOrdinal (n : Nat) : PyDate :=
  let n0 := n - 1
  let n400 := n0 / 146097
  let r400 := n0 % 146097
  let n100 := r400 / 36524
  let r100 := r400 % 36524
  let n4 := r100 / 1461
  let r4 := r100 % 1461
  let n1 := r4 / 365
  let r1 := r4 % 365
  let year := n400 * 400 + n100 * 100 + n4 * 4 + n1 + 1
  if n1 = 4 ∨ n100 = 4 then ⟨year - 1, 12, 31⟩
  else
    let md := monthLoop 12 year 1 r1
    ⟨year, md.1, md.2⟩

/-- Ordinal of 9999-12-31, the largest representable `datetime`. -/
def maxOrdinal : Nat := 3652059

/-- `base + timedelta(days=amount)`: raises `OverflowError` past year 9999. -/
def addDays (dt : PyDate) (amount : Nat) : Except String PyDate :=
  let o := toOrdinal dt + amount
  if maxOrdinal < o then .error "date value out of range"
  else .ok (fromOrdinal o)

/-- `strftime("%B")` month names. -/
def monthName : Nat → String
  | 1 => "January" | 2 => "February" | 3 => "March" | 4 => "April"
  | 5 => "May" | 6 => "June" | 7 => "July" | 8 => "August"
  | 9 => "September" | 10 => "October" | 11 => "November" | 12 => "December"
  | _ => ""

/-- Two-digit zero padding, `strftime("%d")`. -/
def pad2 (n : Nat) : String := if n < 10 then "0" ++ toString n else toString n

/-- Four-digit zero padding, `strftime("%Y")`. -/
def pad4 (n : Nat) : String :=
  if n < 10 then "000" ++ toString n
  else if n < 100 then "00" ++ toString n
  else if n < 1000 then "0" ++ toString n
  else toString n

/-- `strftime("%B %d, %Y")`. -/
def formatBDY (dt : PyDate) : String :=
  monthName dt.month ++ " " ++ pad2 dt.day ++ ", " ++ pad4 dt.year

/-- `strftime("%A")`: weekday name; ordinal 1 (0001-01-01) is a Monday. -/
def weekdayName (dt : PyDate) : String :=
  match toOrdinal dt % 7 with
  | 1 => "Monday" | 2 => "Tuesday" | 3 => "Wednesday" | 4 => "Thursday"
  | 5 => "Friday" | 6 => "Saturday" | _ => "Sunday"

/-! ## The date regular expression

`\b(\d{1,2}) SEP (\d{1,2}) SEP (\d{4})\b` with SEP the class of `/` and `-`.
Each `\d{1,2}` is immediately followed by a mandatory separator and `\d{4}`
by `\b`, and a digit is never a separator, so greedy matching without
backtracking is equivalent to full regex semantics (if the two-digit
alternative fails at the following separator, the one-digit alternative sees
a digit there and fails as well). -/

/-- Match `\d{1,2}` greedily at the head of the list, returning the numeric
value and the remaining characters. -/
def takeNum12 : List Char → Option (Nat × List Char)
  | [] => none
  | [c] => if c.isDigit then some (digVal c, []) else none
  | c1 :: c2 :: rest =>
    if c1.isDigit then
      if c2.isDigit then some (digVal c1 * 10 + digVal c2, rest)
      else some (digVal c1, c2 :: rest)
    else none

/-- Match the separator class (slash or hyphen) at the head of the list. -/
def takeSep : List Char → Option (List Char)
  | [] => none
  | c :: rest => if c == '/' || c == '-' then some rest else none

/-- Match `\d{4}` at the head of the list. -/
def take4 : List Char → Option (Nat × List Char)
  | c1 :: c2 :: c3 :: c4 :: rest =>
    if c1.isDigit && c2.isDigit && c3.isDigit && c4.isDigit then
      some (digVal c1 * 1000 + digVal c2 * 100 + digVal c3 * 10 + digVal c4, rest)
    else none
  | _ => none

/-- `\b` after a word character: the next character must be absent or
a non-word character. -/
def boundaryAfter : List Char → Bool
  | [] => true
  | c :: _ => !isWordChar c

/-- Try the whole date pattern at the current position (the leading `\b` is
checked by the caller via the previous character). -/
def matchDateFrom (cs : List Char) : Option ((Nat × Nat × Nat) × List Char) :=
  match takeNum12 cs with
  | none => none
  | some (d, r1) =>
    match takeSep r1 with
    | none => none
    | some r2 =>
      match takeNum12 r2 with
      | none => none
      | some (m, r3) =>
        match takeSep r3 with
        | none => none
        | some r4 =>
          match take4 r4 with
          | none => none
          | some (y, r5) => if boundaryAfter r5 then some ((d, m, y), r5) else none

/-- `re.findall` for the date pattern: scan left to right, record each
non-overlapping match, resume after the matched text.  `prevWord` is whether
the character before the current position is a word character (`false` at the
start of the string); since the first pattern character is a digit, the
leading `\b` holds exactly when `prevWord` is false.  The fuel is one more
than the length of the list and each step consumes at least one character. -/
def findDatesAux : Nat → Bool → List Char → List (Nat × Nat × Nat)
  | 0, _, _ => []
  | _ + 1, _, [] => []
  | fuel + 1, prevWord, c :: cs =>
    match (if prevWord then none else matchDateFrom (c :: cs)) with
    | some (t, rest) => t :: findDatesAux fuel true rest
    | none => findDatesAux fuel (isWordChar c) cs

/-- All `(day, month, year)` triples matched by the date pattern in `s`. -/
def findDates (s : String) : List (Nat × Nat × Nat) :=
  findDatesAux (s.data.length + 1) false s.data

/-! ## The duration regular expression `(\d+)\s+(day|month|year)s?`

Here `\d+` is followed by `\s`, `\s+` by a letter, and the three unit words
start with distinct letters, so maximal munch is again equivalent to full
regex semantics. -/

/-- Maximal run of decimal digits at the head of the list. -/
def munchDigits : List Char → List Char × List Char
  | [] => ([], [])
  | c :: cs =>
    if c.isDigit then
      let p := munchDigits cs
      (c :: p.1, p.2)
    else ([], c :: cs)

/-- `int` of a non-empty digit string. -/
def digitsVal (ds : List Char) : Nat := ds.foldl (fun a c => a * 10 + digVal c) 0

/-- Maximal run of `\s` characters; returns its length and the rest. -/
def munchSpaces : List Char → Nat × List Char
  | [] => (0, [])
  | c :: cs =>
    if pyIsSpace c then
      let p := munchSpaces cs
      (p.1 + 1, p.2)
    else (0, c :: cs)

/-- The alternation `day|month|year`, returning the captured unit. -/
def matchUnit (cs : List Char) : Option String :=
  if isPrefixOfL "day".data cs then some "day"
  else if isPrefixOfL "month".data cs then some "month"
  else if isPrefixOfL "year".data cs then some "year"
  else none

/-- `re.search` of the duration pattern: first position (left to right) where
digits, then at least one space, then a unit word match; returns the two
captured groups `(int(amount), unit)`. -/
def searchDurationAux : Nat → List Char → Option (Nat × String)
  | 0, _ => none
  | _ + 1, [] => none
  | fuel + 1, c :: cs =>
    (if c.isDigit then
      let pd := munchDigits (c :: cs)
      let ps := munchSpaces pd.2
      if ps.1 > 0 then
        match matchUnit ps.2 with
        | some u => some (digitsVal pd.1, u)
        | none => none
      else none
    else none).orElse (fun _ => searchDurationAux fuel cs)

/-- First duration match in `s` (the source applies it to the lowered query). -/
def searchDuration (s : String) : Option (Nat × String) :=
  searchDurationAux (s.data.length + 1) s.data

/-! ## The year regular expression `\b(\d{4})\b` -/

/-- `re.search` of the year pattern: leftmost position at a word boundary
with exactly four digits followed by a word boundary. -/
def searchYearAux : Nat → Bool → List Char → Option Nat
  | 0, _, _ => none
  | _ + 1, _, [] => none
  | fuel + 1, prevWord, c :: cs =>
    match (if prevWord then none else take4 (c :: cs)) with
    | some (y, rest) =>
      if boundaryAfter rest then some y
      else searchYearAux fuel (isWordChar c) cs
    | none => searchYearAux fuel (isWordChar c) cs

/-- The first 4-digit standalone number in `s`, if any. -/
def searchYear (s : String) : Option Nat :=
  searchYearAux (s.data.length + 1) false s.data

/-! ## `TemporalReasoningAgent` -/

/-- Python tuple comparison `(a1, a2) < (b1, b2)` (lexicographic). -/
def tupLt (a b : Nat × Nat) : Bool := a.1 < b.1 || (a.1 == b.1 && a.2 < b.2)

/-- Keyword lists of `_identify_operation`, in source order. -/
def age_keywords : List String := ["age", "born", "birth"]

def addition_keywords : List String := ["later", "after", "next", "add"]

def subtraction_keywords : List String := ["before", "ago", "subtract"]

def interval_keywords : List String := ["between", "interval", "duration"]

def weekday_keywords : List String := ["day of week", "weekday"]

/-- `_identify_operation`: priority-ordered keyword scan of the lowered
query, first match wins, defaulting to `"date_addition"`. -/
def _identify_operation (query : String) : String :=
  let query_lower := pyLower query
  if hasAny query_lower age_keywords then "age_calculation"
  else if hasAny query_lower addition_keywords then "date_addition"
  else if hasAny query_lower subtraction_keywords then "date_subtraction"
  else if hasAny query_lower interval_keywords then "time_interval"
  else if hasAny query_lower weekday_keywords then "day_of_week"
  else if strContains query_lower "leap year" then "leap_year_check"
  else "date_addition"

/-- `_calculate_age`: two regex dates (day, month, year), first is birth and
second is target; the year difference is decremented when the target
(month, day) pair precedes the birth pair.  A `ValueError` from the `datetime`
constructor propagates as `.error`. -/
def _calculate_age (query : String) : Except String String :=
  match findDates query with
  | (d1, m1, y1) :: (d2, m2, y2) :: _ =>
    match datetime_mk y1 m1 d1 with
    | .error e => .error e
    | .ok birth_date =>
      match datetime_mk y2 m2 d2 with
      | .error e => .error e
      | .ok target_date =>
        .ok (toString ((target_date.year : Int) - (birth_date.year : Int)
              - (if tupLt (target_date.month, target_date.day)
                        (birth_date.month, birth_date.day) then 1 else 0))
             ++ " years")
  | _ => .ok "Could not extract dates for age calculation"

/-- `_add_to_date`: first regex date plus the first duration phrase; days are
added through ordinal arithmetic, months and years through naive carry with
the day clamped to `min day 28`. -/
def _add_to_date (query : String) : Except String String :=
  match (findDates query).head? with
  | none => .ok "No date found in query"
  | some (day, month, year) =>
    match datetime_mk year month day with
    | .error e => .error e
    | .ok base_date =>
      match searchDuration (pyLower query) with
      | none => .ok "No duration specified"
      | some (amount, unit) =>
        if unit = "day" then
          match addDays base_date amount with
          | .error e => .error e
          | .ok new_date => .ok (formatBDY new_date)
        else if unit = "month" then
          match datetime_mk (year + (month + amount - 1) / 12)
                  ((month + amount - 1) % 12 + 1) (min day 28) with
          | .error e => .error e
          | .ok new_date => .ok (formatBDY new_date)
        else if unit = "year" then
          match datetime_mk (year + amount) month (min day 28) with
          | .error e => .error e
          | .ok new_date => .ok (formatBDY new_date)
        else .ok ("Unknown unit: " ++ unit)

/-- `_subtract_from_date`: the body of the source is a bare `pass`, so the
call returns Python `None`. -/
def _subtract_from_date (_query : String) : Option String := none

/-- `_calculate_interval`: absolute ordinal difference of the first two regex
dates, decomposed as 365-day years, 30-day months and leftover days; parts
equal to zero are dropped except that the day part is kept when nothing else
was emitted. -/
def _calculate_interval (query : String) : Except String String :=
  match findDates query with
  | (d1, m1, y1) :: (d2, m2, y2) :: _ =>
    match datetime_mk y1 m1 d1 with
    | .error e => .error e
    | .ok date1 =>
      match datetime_mk y2 m2 d2 with
      | .error e => .error e
      | .ok date2 =>
        let deltaDays : Nat := ((toOrdinal date2 : Int) - (toOrdinal date1 : Int)).natAbs
        let years := deltaDays / 365
        let months := deltaDays % 365 / 30
        let days := deltaDays % 365 % 30
        let parts : List String :=
          (if years > 0 then
            [toString years ++ " year" ++ (if years > 1 then "s" else "")] else [])
          ++ (if months > 0 then
            [toString months ++ " month" ++ (if months > 1 then "s" else "")] else [])
        let parts := parts ++
          (if days > 0 || parts.isEmpty then
            [toString days ++ " day" ++ (if days > 1 then "s" else "")] else [])
        .ok (String.intercalate ", " parts)
  | _ => .ok "Could not extract two dates"

/-- `_find_day_of_week`: weekday name of the first regex date. -/
def _find_day_of_week (query : String) : Except String String :=
  match (findDates query).head? with
  | none => .ok "Could not extract date"
  | some (day, month, year) =>
    match datetime_mk year month day with
    | .error e => .error e
    | .ok date_obj => .ok (weekdayName date_obj)

/-- `_check_leap_year`: first standalone 4-digit number, classified by the
Gregorian rule. -/
def _check_leap_year (query : String) : Except String String :=
  match searchYear query with
  | none => .ok "Could not extract year"
  | some year =>
    .ok (toString year ++ " is "
         ++ (if (year % 4 == 0 && year % 100 != 0) || year % 400 == 0
             then "a leap year" else "not a leap year"))

/-- `_execute_operation`: dispatch on the operation name inside
`try/except`, a raised exception becoming the string
`"Error in temporal operation: ..."`; unknown operations give `None`. -/
def _execute_operation (operation query : String) : Option String :=
  let r : Except String (Option String) :=
    if operation = "age_calculation" then (_calculate_age query).map some
    else if operation = "date_addition" then (_add_to_date query).map some
    else if operation = "date_subtraction" then .ok (_subtract_from_date query)
    else if operation = "time_interval" then (_calculate_interval query).map some
    else if operation = "day_of_week" then (_find_day_of_week query).map some
    else if operation = "leap_year_check" then (_check_leap_year query).map some
    else .ok none
  match r with
  | .ok v => v
  | .error e => some ("Error in temporal operation: " ++ e)

/-- The patterns whose presence in the result adds 0.2 to the confidence. -/
def confidence_patterns : List String := ["year", "month", "day", "Monday", "Tuesday"]

/-- `_calculate_confidence` (the query argument is unused by the source). -/
def _calculate_confidence (_query : String) (result : Option String) : ℚ :=
  match result with
  | none => 0
  | some s =>
    if strContains s "Error" || strContains s "Could not" then 0
    else
      let confidence : ℚ := 7/10
      let confidence :=
        if confidence_patterns.any (fun p => strContains s p)
        then confidence + 2/10 else confidence
      let confidence :=
        if s.data.any Char.isDigit then confidence + 1/10 else confidence
      min confidence 1

/-- The dictionary returned by `process`. -/
structure ProcessOutput where
  agent : String
  operation : String
  result : Option String
  confidence : ℚ
deriving Repr, DecidableEq

/-- `process`: identify the operation from the query, execute it, and attach
the agent name and the confidence score.  (The `"context"` entry of the input
dictionary is read but never used; the embedding therefore takes the query
string directly.) -/
def process (query : String) : ProcessOutput :=
  let operation := _identify_operation query
  let result := _execute_operation operation query
  ⟨"TemporalReasoningAgent", operation, result, _calculate_confidence query result⟩

/-! ## `MSCoReAdapter` -/

/-- The `MSCoReExample` dataclass. -/
structure MSCoReExample where
  question_id : String
  question : String
  answer : String
  reasoning_steps : List String
  domain : String
  difficulty : String
deriving Repr, DecidableEq

/-- One parsed JSON object of the `"examples"` array: every key may be
absent. -/
structure RawItem where
  id : Option String
  question : Option String
  answer : Option String
  reasoning_steps : Option (List String)
  domain : Option String
  difficulty : Option String
deriving Repr, DecidableEq

/-- Build one `MSCoReExample` from a raw item: the lookups of the keys
id, question and answer raise `KeyError` when absent
(modelled as `.error` carrying the key), the other keys fall back to
`item.get` defaults. -/
def mkExample (item : RawItem) : Except String MSCoReExample :=
  match item.id with
  | none => .error "id"
  | some i =>
    match item.question with
    | none => .error "question"
    | some qu =>
      match item.answer with
      | none => .error "answer"
      | some a =>
        .ok ⟨i, qu, a, item.reasoning_steps.getD [],
             item.domain.getD "general", item.difficulty.getD "medium"⟩

/-- The loop of `load_data` over the examples array: examples are appended
one by one to the mutable `self.examples` list (the accumulator); a
`KeyError` stops the loop and is re-raised after logging, leaving the
accumulator as it stands.  The returned pair is the final list together with
the raised key, if any. -/
def load_data_aux : List RawItem → List MSCoReExample → List MSCoReExample × Option String
  | [], acc => (acc, none)
  | item :: rest, acc =>
    match mkExample item with
    | .ok e => load_data_aux rest (acc ++ [e])
    | .error k => (acc, some k)

/-- `load_data` starting from the empty `self.examples` of `__init__`.
(Unreadable files and malformed JSON also propagate out of `load_data`; they
happen before the loop and leave the list empty, out of scope here.) -/
def load_data (items : List RawItem) : List MSCoReExample × Option String :=
  load_data_aux items []

/-- The example a successful `mkExample` produces (with a dummy default that
is never reached when the call succeeded). -/
def mkExampleD (item : RawItem) : MSCoReExample :=
  ((mkExample item).toOption).getD ⟨"", "", "", [], "", ""⟩

/-- The `metadata` sub-dictionary of the converted record. -/
structure MaaSMetadata where
  domain : String
  difficulty : String
  source : String
  reasoning_steps : List String
deriving Repr, DecidableEq

/-- The dictionary built by `convert_to_maas_format`. -/
structure MaaSInput where
  id : String
  question : String
  expected_answer : String
  metadata : MaaSMetadata
deriving Repr, DecidableEq

/-- `convert_to_maas_format`: pure field-by-field mapping with the constant
source tag `"MSCoRe"`. -/
def convert_to_maas_format (ex : MSCoReExample) : MaaSInput :=
  ⟨ex.question_id, ex.question, ex.answer,
   ⟨ex.domain, ex.difficulty, "MSCoRe", ex.reasoning_steps⟩⟩

/-- `batch_convert` over an explicit list (the default argument uses the
loaded `self.examples`). -/
def batch_convert (examples : List MSCoReExample) : List MaaSInput :=
  examples.map convert_to_maas_format

/-- Keyword lists of the six question classifiers.  The two unusual entries
of the arithmetic list are the mojibake multiplication and division signs
present verbatim in the source. -/
def arithmetic_keywords : List String :=
  ["+", "-", "ร", "*", "/", "รท", "percent", "percentage", "sum", "total", "average"]

def temporal_keywords : List String :=
  ["day", "month", "year", "hour", "minute", "second", "date", "time", "age", "born"]

def logical_keywords : List String :=
  ["if", "then", "and", "or", "not", "all", "some", "none", "implies", "therefore"]

def spatial_keywords : List String :=
  ["square", "circle", "triangle", "perimeter", "area", "volume", "distance", "angle"]

def commonsense_keywords : List String :=
  ["capital", "president", "country", "city", "person", "animal", "color", "shape"]

def step_indicators : List String :=
  ["then", "after", "next", "first", "second", "finally", "later", "subsequently"]

def _has_arithmetic (question : String) : Bool :=
  hasAny (pyLower question) arithmetic_keywords

def _has_temporal (question : String) : Bool :=
  hasAny (pyLower question) temporal_keywords

def _has_logical (question : String) : Bool :=
  hasAny (pyLower question) logical_keywords

def _has_spatial (question : String) : Bool :=
  hasAny (pyLower question) spatial_keywords

def _has_commonsense (question : String) : Bool :=
  hasAny (pyLower question) commonsense_keywords

def _requires_multi_step (question : String) : Bool :=
  hasAny (pyLower question) step_indicators

/-- The dictionary returned by `analyze_question_type`. -/
structure QuestionAnalysis where
  has_arithmetic : Bool
  has_temporal : Bool
  has_logical : Bool
  has_spatial : Bool
  has_commonsense : Bool
  requires_multi_step : Bool
deriving Repr, DecidableEq

/-- `analyze_question_type`: the six independent keyword tests. -/
def analyze_question_type (question : String) : QuestionAnalysis :=
  ⟨_has_arithmetic question, _has_temporal question, _has_logical question,
   _has_spatial question, _has_commonsense question, _requires_multi_step question⟩

/-- What `process` actually does on a query with no extractable date
(per selected operation): the four date-driven operations answer with their
failure message and confidence 0 (null result for the subtraction stub),
`date_addition` answers "No date found in query" with confidence 0.7, and
`leap_year_check` either fails with "Could not extract year" and
confidence 0 or still answers the leap-year question from a standalone
4-digit number.  `process` always returns such a structure and never
raises (the embedding of `process` is a total function). -/
def noDateBehaviour (q : String) : Prop :=
  (process q).agent = "TemporalReasoningAgent" ∧
  ((process q).operation = "age_calculation" →
    (process q).result = some "Could not extract dates for age calculation" ∧
    (process q).confidence = 0) ∧
  ((process q).operation = "date_addition" →
    (process q).result = some "No date found in query" ∧
    (process q).confidence = 7/10) ∧
  ((process q).operation = "date_subtraction" →
    (process q).result = none ∧ (process q).confidence = 0) ∧
  ((process q).operation = "time_interval" →
    (process q).result = some "Could not extract two dates" ∧
    (process q).confidence = 0) ∧
  ((process q).operation = "day_of_week" →
    (process q).result = some "Could not extract date" ∧
    (process q).confidence = 0) ∧
  ((process q).operation = "leap_year_check" →
    (searchYear q = none →
      (process q).result = some "Could not extract year" ∧
      (process q).confidence = 0) ∧
    (∀ y : Nat, searchYear q = some y →
      (process q).result = some (toString y ++ " is " ++
        (if (y % 4 = 0 ∧ y % 100 ≠ 0) ∨ y % 400 = 0
         then "a leap year" else "not a leap year"))))

/-! ## Shared lemmas -/

instance {ε α : Type} [DecidableEq ε] [DecidableEq α] : DecidableEq (Except ε α) :=
  fun x y =>
    match x, y with
    | .ok a, .ok b =>
      if h : a = b then .isTrue (by rw [h])
      else .isFalse (fun hc => h (by injection hc))
    | .error a, .error b =>
      if h : a = b then .isTrue (by rw [h])
      else .isFalse (fun hc => h (by injection hc))
    | .ok _, .error _ => .isFalse (fun hc => Except.noConfusion hc)
    | .error _, .ok _ => .isFalse (fun hc => Except.noConfusion hc)

/-- The confidence field of `process` is the confidence of its result field. -/
theorem process_confidence (q : String) :
    (process q).confidence = _calculate_confidence q ((process q).result) := rfl

/-- The operation field of `process` is `_identify_operation`. -/
theorem process_operation (q : String) :
    (process q).operation = _identify_operation q := rfl

/-- The result field of `process` is the executed operation. -/
theorem process_result (q : String) :
    (process q).result = _execute_operation (_identify_operation q) q := rfl

/-- A missing result scores confidence 0. -/
theorem confidence_none (q : String) : _calculate_confidence q none = 0 := rfl

/-- A result containing `"Could not"` scores confidence 0. -/
theorem confidence_couldnot (q s : String) (h : strContains s "Could not" = true) :
    _calculate_confidence q (some s) = 0 := by
  simp [_calculate_confidence, h]

/-- A result with no error marker, no unit/weekday pattern and no digit
scores the base confidence 0.7. -/
theorem confidence_plain (q s : String)
    (h1 : strContains s "Error" = false)
    (h2 : strContains s "Could not" = false)
    (h3 : (confidence_patterns.any fun p => strContains s p) = false)
    (h4 : s.data.any Char.isDigit = false) :
    _calculate_confidence q (some s) = 7/10 := by
  simp only [_calculate_confidence, h1, h2, h3, h4]
  norm_num

/-- Building the parts list of `_calculate_interval` with the mutable-list
test `parts.isEmpty` agrees with the condition "both higher units are
zero". -/
theorem interval_parts_eq (ys ms ds : Nat) (sY sM sD : String) :
    ((if 0 < ys then [sY] else []) ++ (if 0 < ms then [sM] else []))
      ++ (if (decide (0 < ds)
              || ((if 0 < ys then [sY] else []) ++ (if 0 < ms then [sM] else [])).isEmpty) = true
          then [sD] else [])
    = ((if 0 < ys then [sY] else []) ++ (if 0 < ms then [sM] else []))
      ++ (if 0 < ds ∨ (ys = 0 ∧ ms = 0) then [sD] else []) := by
  by_cases hy : ys = 0 <;> by_cases hm : ms = 0 <;> by_cases hd : ds = 0 <;>
    simp [hy, hm, hd, Nat.pos_iff_ne_zero]

/-- A valid date triple passes the `datetime` constructor unchanged. -/
theorem datetime_mk_ok (y m d : Nat) (h : isValidDate y m d) :
    datetime_mk y m d = .ok ⟨y, m, d⟩ := by
  obtain ⟨h1, h2, h3, h4, h5, h6⟩ := h
  unfold datetime_mk
  rw [if_neg (by omega), if_neg (by omega), if_neg (by omega)]

/-- Every month has at least 28 days. -/
theorem daysInMonth_ge (y m : Nat) : 28 ≤ daysInMonth y m := by
  unfold daysInMonth
  split
  · split <;> omega
  · split <;> omega

/-- The Bool leap test of the source agrees with the Gregorian rule stated
as a proposition. -/
theorem leap_bool_iff (y : Nat) :
    (((y % 4 == 0) && (y % 100 != 0)) || (y % 400 == 0)) = true ↔
      ((y % 4 = 0 ∧ y % 100 ≠ 0) ∨ y % 400 = 0) := by
  simp [Bool.or_eq_true, Bool.and_eq_true]

/-! ## Claim theorems -/

/-- C2, counterexample: on a concrete record, `convert_to_maas_format` tags
the metadata source as the constant `"MSCoRe"`, which is not the string
`"source-benchmark"` demanded by the claim. -/
theorem claim2_counterexample :
    (convert_to_maas_format ⟨"q1", "Q?", "A", ["s1"], "math", "easy"⟩).metadata.source
      = "MSCoRe" ∧ ("MSCoRe" : String) ≠ "source-benchmark" := by
  constructor
  · rfl
  · decide

/-- C2, amended: `convert_to_maas_format` copies id, question, expected
answer and the metadata domain, difficulty and reasoning steps 1:1 from the
record, and sets the constant metadata source `"MSCoRe"` (not
`"source-benchmark"`). -/
theorem claim2_main (r : MSCoReExample) :
    (convert_to_maas_format r).id = r.question_id ∧
    (convert_to_maas_format r).question = r.question ∧
    (convert_to_maas_format r).expected_answer = r.answer ∧
    (convert_to_maas_format r).metadata.domain = r.domain ∧
    (convert_to_maas_format r).metadata.difficulty = r.difficulty ∧
    (convert_to_maas_format r).metadata.reasoning_steps = r.reasoning_steps ∧
    (convert_to_maas_format r).metadata.source = "MSCoRe" :=
  ⟨rfl, rfl, rfl, rfl, rfl, rfl, rfl⟩

/-- C3, counterexample: on the question `"How old was he in 1990?"` the
temporal flag is false — none of the ten temporal keywords (day, month,
year, hour, minute, second, date, time, age, born) occurs in the lowered
text, so `analyze` does not return temporal=true as the claim states. -/
theorem claim3_counterexample :
    (analyze_question_type "How old was he in 1990?").has_temporal = false := by
  decide

/-- C3, amended: `analyze` on `"What is 5 + 3?"` returns arithmetic=true,
but on `"How old was he in 1990?"` it returns temporal=false; each flag is
a case-insensitive substring test of the question against the fixed keyword
list of its category. -/
theorem claim3_main :
    (analyze_question_type "What is 5 + 3?").has_arithmetic = true ∧
    (analyze_question_type "How old was he in 1990?").has_temporal = false ∧
    (∀ q : String, _has_arithmetic q = true ↔
      ∃ k ∈ arithmetic_keywords, strContains (pyLower q) k = true) ∧
    (∀ q : String, _has_temporal q = true ↔
      ∃ k ∈ temporal_keywords, strContains (pyLower q) k = true) := by
  refine ⟨by decide, by decide, ?_, ?_⟩ <;>
    intro q <;>
    simp [_has_arithmetic, _has_temporal, hasAny, List.any_eq_true]

/-- C6, confirmed: the operation is selected by a case-insensitive keyword
scan in the fixed priority order age words, forward words, backward words,
interval words, weekday words, leap-year phrase, first match winning, with
default `"date_addition"`. -/
theorem claim6_main (q : String) :
    (hasAny (pyLower q) age_keywords = true →
      _identify_operation q = "age_calculation") ∧
    (hasAny (pyLower q) age_keywords = false →
      hasAny (pyLower q) addition_keywords = true →
      _identify_operation q = "date_addition") ∧
    (hasAny (pyLower q) age_keywords = false →
      hasAny (pyLower q) addition_keywords = false →
      hasAny (pyLower q) subtraction_keywords = true →
      _identify_operation q = "date_subtraction") ∧
    (hasAny (pyLower q) age_keywords = false →
      hasAny (pyLower q) addition_keywords = false →
      hasAny (pyLower q) subtraction_keywords = false →
      hasAny (pyLower q) interval_keywords = true →
      _identify_operation q = "time_interval") ∧
    (hasAny (pyLower q) age_keywords = false →
      hasAny (pyLower q) addition_keywords = false →
      hasAny (pyLower q) subtraction_keywords = false →
      hasAny (pyLower q) interval_keywords = false →
      hasAny (pyLower q) weekday_keywords = true →
      _identify_operation q = "day_of_week") ∧
    (hasAny (pyLower q) age_keywords = false →
      hasAny (pyLower q) addition_keywords = false →
      hasAny (pyLower q) subtraction_keywords = false →
      hasAny (pyLower q) interval_keywords = false →
      hasAny (pyLower q) weekday_keywords = false →
      strContains (pyLower q) "leap year" = true →
      _identify_operation q = "leap_year_check") ∧
    (hasAny (pyLower q) age_keywords = false →
      hasAny (pyLower q) addition_keywords = false →
      hasAny (pyLower q) subtraction_keywords = false →
      hasAny (pyLower q) interval_keywords = false →
      hasAny (pyLower q) weekday_keywords = false →
      strContains (pyLower q) "leap year" = false →
      _identify_operation q = "date_addition") := by
  refine ⟨?_, ?_, ?_, ?_, ?_, ?_, ?_⟩ <;>
    intros <;>
    simp only [_identify_operation] <;>
    simp_all

/-- C6, witness: a query containing an age keyword is classified as
`age_calculation`. -/
theorem claim6_witness : _identify_operation "my age now" = "age_calculation" :=
  (claim6_main "my age now").1 (by decide)

/-- C8, confirmed: `_check_leap_year` extracts the first standalone 4-digit
number and classifies it with the Gregorian rule, producing a yes/no
sentence; on `"is 2000 a leap year"` it answers `"2000 is a leap year"` and
on a query with 1900 the sentence says `"not a leap year"`. -/
theorem claim8_main :
    (∀ (q : String) (y : Nat), searchYear q = some y →
      _check_leap_year q = .ok (toString y ++ " is " ++
        (if (y % 4 = 0 ∧ y % 100 ≠ 0) ∨ y % 400 = 0
         then "a leap year" else "not a leap year"))) ∧
    _check_leap_year "is 2000 a leap year" = .ok "2000 is a leap year" ∧
    _check_leap_year "is 1900 a leap year" = .ok "1900 is not a leap year" := by
  refine ⟨?_, by decide, by decide⟩
  intro q y hy
  simp only [_check_leap_year, hy]
  by_cases hc : (y % 4 = 0 ∧ y % 100 ≠ 0) ∨ y % 400 = 0
  · rw [if_pos ((leap_bool_iff y).mpr hc), if_pos hc]
  · rw [if_neg (fun h => hc ((leap_bool_iff y).mp h)), if_neg hc]

/-- C8, witness: the general part of the claim theorem applied to the query
`"in 1904"`. -/
theorem claim8_witness : _check_leap_year "in 1904" = .ok "1904 is a leap year" := by
  have h := claim8_main.1 "in 1904" 1904 (by decide)
  rw [h]
  decide

/-- C9, counterexample: the query `"before and after"` satisfies the
condition stated by the claim (it contains `"before"` and none of the age
keywords), yet `process` selects `"date_addition"` — the forward keyword
`"after"` has higher priority than the backward keywords, which the claim
omits — and returns a non-null result with confidence 0.7, not 0.0. -/
theorem claim9_counterexample :
    strContains (pyLower "before and after") "before" = true ∧
    hasAny (pyLower "before and after") age_keywords = false ∧
    (process "before and after").operation = "date_addition" ∧
    (process "before and after").result = some "No date found in query" ∧
    (process "before and after").confidence ≠ 0 := by
  have hres : (process "before and after").result = some "No date found in query" := by
    decide
  refine ⟨by decide, by decide, by decide, hres, ?_⟩
  rw [process_confidence, hres,
    confidence_plain _ _ (by decide) (by decide) (by decide) (by decide)]
  norm_num

/-- C9, amended: for every query that contains a backward keyword
(before/ago/subtract) and none of the age keywords (age/born/birth) nor of
the higher-priority forward keywords (later/after/next/add), `process`
returns operation `"date_subtraction"` with result null (the stub
`_subtract_from_date` returns no value) and confidence 0.0, and raises no
exception. -/
theorem claim9_main (q : String)
    (hsub : hasAny (pyLower q) subtraction_keywords = true)
    (hage : hasAny (pyLower q) age_keywords = false)
    (hadd : hasAny (pyLower q) addition_keywords = false) :
    process q = ⟨"TemporalReasoningAgent", "date_subtraction", none, 0⟩ := by
  have hop : _identify_operation q = "date_subtraction" := by
    simp only [_identify_operation]
    simp [hsub, hage, hadd]
  simp only [process]
  rw [hop]
  rfl

/-- C9, witness: the claim theorem on the query
`"subtract 5 days from 10/10/2010"`. -/
theorem claim9_witness :
    process "subtract 5 days from 10/10/2010"
      = ⟨"TemporalReasoningAgent", "date_subtraction", none, 0⟩ :=
  claim9_main "subtract 5 days from 10/10/2010" (by decide) (by decide) (by decide)

/-- Loading a list of well-formed items followed by anything appends all
their examples first. -/
theorem load_data_aux_ok (pre : List RawItem)
    (h : ∀ i ∈ pre, (mkExample i).isOk = true) :
    ∀ (l : List RawItem) (acc : List MSCoReExample),
      load_data_aux (pre ++ l) acc = load_data_aux l (acc ++ pre.map mkExampleD) := by
  induction pre with
  | nil => intro l acc; simp [load_data_aux]
  | cons i pre ih =>
    intro l acc
    have hi : (mkExample i).isOk = true := h i (by simp)
    obtain ⟨e, he⟩ : ∃ e, mkExample i = .ok e := by
      cases hmk : mkExample i with
      | ok e => exact ⟨e, rfl⟩
      | error k => rw [hmk] at hi; simp [Except.isOk, Except.toBool] at hi
    have hD : mkExampleD i = e := by simp [mkExampleD, he, Except.toOption]
    have step : load_data_aux ((i :: pre) ++ l) acc = load_data_aux (pre ++ l) (acc ++ [e]) := by
      simp only [List.cons_append, load_data_aux, he]
      rfl
    rw [step, ih (fun j hj => h j (by simp [hj])) l (acc ++ [e])]
    simp [hD]

/-- An item missing one of the required keys makes `mkExample` raise. -/
theorem mkExample_bad (bad : RawItem)
    (hbad : bad.id = none ∨ bad.question = none ∨ bad.answer = none) :
    ∀ acc rest, load_data_aux (bad :: rest) acc = (acc, some "id") ∨
      load_data_aux (bad :: rest) acc = (acc, some "question") ∨
      load_data_aux (bad :: rest) acc = (acc, some "answer") := by
  intro acc rest
  rcases hbad with h | h | h
  · left; simp [load_data_aux, mkExample, h]
  · rcases hid : bad.id with _ | i
    · left; simp [load_data_aux, mkExample, hid]
    · right; left; simp [load_data_aux, mkExample, hid, h]
  · rcases hid : bad.id with _ | i
    · left; simp [load_data_aux, mkExample, hid]
    · rcases hqu : bad.question with _ | qu
      · right; left; simp [load_data_aux, mkExample, hid, hqu]
      · right; right; simp [load_data_aux, mkExample, hid, hqu, h]

/-- C10, confirmed: loading is not atomic.  If every item before position
`k` is well-formed and the `k`-th item lacks a required key (id, question or
answer), `load_data` raises a `KeyError` after having appended the first
`k - 1` records: the collection it leaves behind equals the one obtained
from the good prefix alone — in particular it has `k - 1` records — not the
empty collection. -/
theorem claim10_main (pre rest : List RawItem) (bad : RawItem)
    (hpre : ∀ i ∈ pre, (mkExample i).isOk = true)
    (hbad : bad.id = none ∨ bad.question = none ∨ bad.answer = none) :
    (load_data (pre ++ bad :: rest)).1 = pre.map mkExampleD ∧
    (load_data (pre ++ bad :: rest)).2.isSome = true ∧
    load_data pre = (pre.map mkExampleD, none) ∧
    (pre.map mkExampleD).length = pre.length := by
  have hsplit := load_data_aux_ok pre hpre (bad :: rest) []
  have hgood := load_data_aux_ok pre hpre [] []
  have hbadstep := mkExample_bad bad hbad (pre.map mkExampleD) rest
  rw [List.append_nil] at hgood
  refine ⟨?_, ?_, ?_, by simp⟩
  · unfold load_data
    rw [hsplit]
    simp only [List.nil_append]
    rcases hbadstep with h | h | h <;> rw [h]
  · unfold load_data
    rw [hsplit]
    simp only [List.nil_append]
    rcases hbadstep with h | h | h <;> rw [h] <;> rfl
  · unfold load_data
    rw [hgood]
    simp [load_data_aux]

/-- C4, confirmed: in `_add_to_date`, adding months or years to an extracted
valid date whose day exceeds 28 constructs the result with the day clamped
to `min day 28 = 28` (whenever the resulting year is still representable),
while adding days goes through exact ordinal arithmetic — on
`"what is 10 days after 15/03/2021"` the answer is `"March 25, 2021"`. -/
theorem claim4_main :
    (∀ (q : String) (d m y n : Nat),
      (findDates q).head? = some (d, m, y) →
      isValidDate y m d →
      28 < d →
      searchDuration (pyLower q) = some (n, "month") →
      y + (m + n - 1) / 12 ≤ 9999 →
      _add_to_date q
        = .ok (formatBDY ⟨y + (m + n - 1) / 12, (m + n - 1) % 12 + 1, min d 28⟩)
        ∧ min d 28 = 28) ∧
    (∀ (q : String) (d m y n : Nat),
      (findDates q).head? = some (d, m, y) →
      isValidDate y m d →
      28 < d →
      searchDuration (pyLower q) = some (n, "year") →
      y + n ≤ 9999 →
      _add_to_date q = .ok (formatBDY ⟨y + n, m, min d 28⟩) ∧ min d 28 = 28) ∧
    _add_to_date "what is 10 days after 15/03/2021" = .ok "March 25, 2021" := by
  refine ⟨?_, ?_, by decide⟩
  · intro q d m y n hhead hval hd hdur hny
    obtain ⟨hy1, hy2, hm1, hm2, hd1, hd2⟩ := hval
    have hmod : (m + n - 1) % 12 < 12 := Nat.mod_lt _ (by omega)
    have hnew := datetime_mk_ok (y + (m + n - 1) / 12) ((m + n - 1) % 12 + 1) (min d 28)
      ⟨by omega, hny, by omega, by omega, by omega,
       le_trans (by omega) (daysInMonth_ge _ _)⟩
    have hbase := datetime_mk_ok y m d ⟨hy1, hy2, hm1, hm2, hd1, hd2⟩
    refine ⟨?_, by omega⟩
    simp only [_add_to_date, hhead, hbase, hdur, hnew]
    rfl
  · intro q d m y n hhead hval hd hdur hny
    obtain ⟨hy1, hy2, hm1, hm2, hd1, hd2⟩ := hval
    have hnew := datetime_mk_ok (y + n) m (min d 28)
      ⟨by omega, hny, hm1, hm2, by omega,
       le_trans (by omega) (daysInMonth_ge _ _)⟩
    have hbase := datetime_mk_ok y m d ⟨hy1, hy2, hm1, hm2, hd1, hd2⟩
    refine ⟨?_, by omega⟩
    simp only [_add_to_date, hhead, hbase, hdur, hnew]
    rfl

/-- C4, witness: the month part of the claim theorem on
`"what is 1 month after 31/01/2021"` — day 31 is clamped to 28. -/
theorem claim4_witness :
    _add_to_date "what is 1 month after 31/01/2021" = .ok "February 28, 2021" := by
  have h := claim4_main.1 "what is 1 month after 31/01/2021" 31 1 2021 1
    (by decide) (by decide) (by decide) (by decide) (by decide)
  rw [h.1]
  decide

/-- C5, counterexample: the regex happily extracts the non-date triple
(day 1, month 13, year 1990) from `"01/13/1990"`; the claim then demands
the answer 2020 − 1990 − 1 = 29 years (since (1,1) < (13,1)
lexicographically), but `_calculate_age` raises a `ValueError` inside the
`datetime` constructor, surfaced as an error, not the claimed year count. -/
theorem claim5_counterexample :
    findDates "from 01/13/1990 to 01/01/2020" = [(1, 13, 1990), (1, 1, 2020)] ∧
    _calculate_age "from 01/13/1990 to 01/01/2020" = .error "month must be in 1..12" ∧
    _calculate_age "from 01/13/1990 to 01/01/2020" ≠ .ok "29 years" := by
  refine ⟨by decide, by decide, by decide⟩

/-- C5, amended: for every query whose first two extracted triples are valid
calendar dates, `_calculate_age` returns reference year minus birth year,
decremented exactly when the reference (month, day) pair is lexicographically
below the birth pair; with fewer than two extracted dates it returns the
"Could not extract dates..." message; `"01/01/1990"` and `"01/01/2020"` give
`"30 years"`. -/
theorem claim5_main :
    (∀ (q : String) (d1 m1 y1 d2 m2 y2 : Nat) (rest : List (Nat × Nat × Nat)),
      findDates q = (d1, m1, y1) :: (d2, m2, y2) :: rest →
      isValidDate y1 m1 d1 →
      isValidDate y2 m2 d2 →
      _calculate_age q = .ok (toString ((y2 : Int) - (y1 : Int) -
        (if tupLt (m2, d2) (m1, d1) then 1 else 0)) ++ " years")) ∧
    (∀ q : String, (findDates q).length ≤ 1 →
      _calculate_age q = .ok "Could not extract dates for age calculation") ∧
    _calculate_age "born 01/01/1990, age on 01/01/2020" = .ok "30 years" := by
  refine ⟨?_, ?_, by decide⟩
  · intro q d1 m1 y1 d2 m2 y2 rest hfind hv1 hv2
    simp only [_calculate_age, hfind, datetime_mk_ok y1 m1 d1 hv1,
      datetime_mk_ok y2 m2 d2 hv2]
  · intro q h
    rcases hf : findDates q with _ | ⟨⟨d, m, y⟩, _ | ⟨⟨d2, m2, y2⟩, r⟩⟩
    · simp [_calculate_age, hf]
    · simp [_calculate_age, hf]
    · rw [hf] at h
      simp [List.length_cons] at h

/-- C5, witness: the general part of the claim theorem on the quoted
example query. -/
theorem claim5_witness :
    _calculate_age "his birth 01/01/1990, his age on 01/01/2020?" = .ok "30 years" := by
  have h := claim5_main.1 "his birth 01/01/1990, his age on 01/01/2020?"
    1 1 1990 1 1 2020 [] (by decide) (by decide) (by decide)
  rw [h]
  decide

/-- C7, counterexample: `"between 01/13/1990 and 01/01/2020"` yields two
extracted triples, but the first is not a calendar date, so
`_calculate_interval` produces a `ValueError`-derived error instead of the
decomposition string the claim promises for every query with two extracted
dates. -/
theorem claim7_counterexample :
    findDates "between 01/13/1990 and 01/01/2020" = [(1, 13, 1990), (1, 1, 2020)] ∧
    _calculate_interval "between 01/13/1990 and 01/01/2020"
      = .error "month must be in 1..12" ∧
    (_calculate_interval "between 01/13/1990 and 01/01/2020").isOk = false := by
  refine ⟨by decide, by decide, by decide⟩

/-- C7, amended: for every query whose first two extracted triples are valid
calendar dates, `_calculate_interval` takes the absolute day difference `dd`
and reports `dd / 365` years, `dd % 365 / 30` months and `dd % 365 % 30`
days, omitting zero components except that the day component is kept when
both years and months are zero. -/
theorem claim7_main :
    (∀ (q : String) (d1 m1 y1 d2 m2 y2 : Nat) (rest : List (Nat × Nat × Nat)),
      findDates q = (d1, m1, y1) :: (d2, m2, y2) :: rest →
      isValidDate y1 m1 d1 →
      isValidDate y2 m2 d2 →
      ∀ dd ys ms ds : Nat,
      dd = ((toOrdinal ⟨y2, m2, d2⟩ : Int) - (toOrdinal ⟨y1, m1, d1⟩ : Int)).natAbs →
      ys = dd / 365 →
      ms = dd % 365 / 30 →
      ds = dd % 365 % 30 →
      _calculate_interval q = .ok (String.intercalate ", "
        ((if 0 < ys then [toString ys ++ " year" ++ (if 1 < ys then "s" else "")] else [])
         ++ (if 0 < ms then [toString ms ++ " month" ++ (if 1 < ms then "s" else "")] else [])
         ++ (if 0 < ds ∨ (ys = 0 ∧ ms = 0) then
              [toString ds ++ " day" ++ (if 1 < ds then "s" else "")] else [])))) ∧
    _calculate_interval "between 01/01/2020 and 15/03/2021"
      = .ok "1 year, 2 months, 14 days" := by
  refine ⟨?_, by decide⟩
  intro q d1 m1 y1 d2 m2 y2 rest hfind hv1 hv2 dd ys ms ds hdd hys hms hds
  subst hdd hys hms hds
  simp only [_calculate_interval, hfind, datetime_mk_ok y1 m1 d1 hv1,
    datetime_mk_ok y2 m2 d2 hv2]
  exact congrArg (fun l => Except.ok (String.intercalate ", " l))
    (interval_parts_eq _ _ _ _ _ _)

/-- C7, witness: the general part of the claim theorem on a concrete query
spanning 439 days. -/
theorem claim7_witness :
    _calculate_interval "days between 01/01/2020 and 15/03/2021?"
      = .ok "1 year, 2 months, 14 days" := by
  have h := claim7_main.1 "days between 01/01/2020 and 15/03/2021?"
    1 1 2020 15 3 2021 [] (by decide) (by decide) (by decide)
    439 1 2 14 (by decide) (by decide) (by decide) (by decide)
  rw [h]
  decide

/-- C10, witness: loading a good item, then an item without the answer key,
then another good item, stops with the `KeyError` while keeping exactly the
first record. -/
theorem claim10_witness :
    (load_data [⟨some "a", some "q1", some "x", none, none, none⟩,
                ⟨some "b", some "q2", none, none, none, none⟩,
                ⟨some "c", some "q3", some "z", none, none, none⟩]).1
      = [⟨"a", "q1", "x", [], "general", "medium"⟩] ∧
    (load_data [⟨some "a", some "q1", some "x", none, none, none⟩,
                ⟨some "b", some "q2", none, none, none, none⟩,
                ⟨some "c", some "q3", some "z", none, none, none⟩]).2.isSome = true := by
  have h := claim10_main
    [⟨some "a", some "q1", some "x", none, none, none⟩]
    [⟨some "c", some "q3", some "z", none, none, none⟩]
    ⟨some "b", some "q2", none, none, none, none⟩
    (by decide) (Or.inr (Or.inr rfl))
  exact ⟨h.1.trans (by decide), h.2.1⟩

/-- C1, counterexample: `"is 2000 a leap year"` contains no substring
matching the date pattern, yet `process` returns the successful sentence
`"2000 is a leap year"` — neither a "Could not..." nor a "No date found"
message — with a nonzero confidence, contradicting the claimed
confidence 0.0. -/
theorem claim1_counterexample :
    findDates "is 2000 a leap year" = [] ∧
    (process "is 2000 a leap year").result = some "2000 is a leap year" ∧
    strContains "2000 is a leap year" "Could not" = false ∧
    strContains "2000 is a leap year" "No date found" = false ∧
    (process "is 2000 a leap year").confidence ≠ 0 := by
  have hres : (process "is 2000 a leap year").result = some "2000 is a leap year" := by
    decide
  refine ⟨by decide, hres, by decide, by decide, ?_⟩
  rw [process_confidence, hres]
  have hb1 : (strContains "2000 is a leap year" "Error"
      || strContains "2000 is a leap year" "Could not") = false := by decide
  have hb2 : (confidence_patterns.any fun p =>
      strContains "2000 is a leap year" p) = true := by decide
  have hb3 : ("2000 is a leap year".data.any Char.isDigit) = true := by decide
  simp only [_calculate_confidence, hb1, hb2, hb3, Bool.false_eq_true, if_false, if_true]
  norm_num

/-- C1, amended: on a query with no extractable date `process` never raises
and returns, per selected operation: the "Could not ..." failure message
with confidence 0.0 for age_calculation, time_interval and day_of_week;
null with confidence 0.0 for date_subtraction; but "No date found in query"
with confidence 0.7 (not 0.0) for date_addition; and for leap_year_check
either "Could not extract year" with confidence 0.0 or — when the query
holds a standalone 4-digit number — a successful leap-year sentence. -/
theorem claim1_main (q : String) (h : findDates q = []) : noDateBehaviour q := by
  have hage : _calculate_age q = .ok "Could not extract dates for age calculation" := by
    simp [_calculate_age, h]
  have hadd : _add_to_date q = .ok "No date found in query" := by
    simp [_add_to_date, h]
  have hint : _calculate_interval q = .ok "Could not extract two dates" := by
    simp [_calculate_interval, h]
  have hdow : _find_day_of_week q = .ok "Could not extract date" := by
    simp [_find_day_of_week, h]
  refine ⟨rfl, ?_, ?_, ?_, ?_, ?_, ?_⟩
  · intro hop
    have hid : _identify_operation q = "age_calculation" := hop
    have hres : (process q).result = some "Could not extract dates for age calculation" := by
      rw [process_result, hid]
      simp only [_execute_operation, hage]
      rfl
    exact ⟨hres, by
      rw [process_confidence, hres]
      exact confidence_couldnot _ _ (by decide)⟩
  · intro hop
    have hid : _identify_operation q = "date_addition" := hop
    have hres : (process q).result = some "No date found in query" := by
      rw [process_result, hid]
      simp only [_execute_operation, hadd]
      rfl
    exact ⟨hres, by
      rw [process_confidence, hres]
      exact confidence_plain _ _ (by decide) (by decide) (by decide) (by decide)⟩
  · intro hop
    have hid : _identify_operation q = "date_subtraction" := hop
    have hres : (process q).result = none := by
      rw [process_result, hid]
      rfl
    exact ⟨hres, by rw [process_confidence, hres]; exact confidence_none q⟩
  · intro hop
    have hid : _identify_operation q = "time_interval" := hop
    have hres : (process q).result = some "Could not extract two dates" := by
      rw [process_result, hid]
      simp only [_execute_operation, hint]
      rfl
    exact ⟨hres, by
      rw [process_confidence, hres]
      exact confidence_couldnot _ _ (by decide)⟩
  · intro hop
    have hid : _identify_operation q = "day_of_week" := hop
    have hres : (process q).result = some "Could not extract date" := by
      rw [process_result, hid]
      simp only [_execute_operation, hdow]
      rfl
    exact ⟨hres, by
      rw [process_confidence, hres]
      exact confidence_couldnot _ _ (by decide)⟩
  · intro hop
    have hid : _identify_operation q = "leap_year_check" := hop
    constructor
    · intro hy
      have hleap : _check_leap_year q = .ok "Could not extract year" := by
        simp [_check_leap_year, hy]
      have hres : (process q).result = some "Could not extract year" := by
        rw [process_result, hid]
        simp only [_execute_operation, hleap]
        rfl
      exact ⟨hres, by
        rw [process_confidence, hres]
        exact confidence_couldnot _ _ (by decide)⟩
    · intro y hy
      have hleap : _check_leap_year q = .ok (toString y ++ " is " ++
          (if (y % 4 = 0 ∧ y % 100 ≠ 0) ∨ y % 400 = 0
           then "a leap year" else "not a leap year")) := by
        simp only [_check_leap_year, hy]
        by_cases hc : (y % 4 = 0 ∧ y % 100 ≠ 0) ∨ y % 400 = 0
        · rw [if_pos ((leap_bool_iff y).mpr hc), if_pos hc]
        · rw [if_neg (fun hx => hc ((leap_bool_iff y).mp hx)), if_neg hc]
      rw [process_result, hid]
      simp only [_execute_operation, hleap]
      rfl

/-- C1, witness: the claim theorem on the dateless query `"hello"`. -/
theorem claim1_witness : findDates "hello" = [] ∧ noDateBehaviour "hello" :=
  ⟨by decide, claim1_main "hello" (by decide)⟩

end MaaS
